import Mathlib

/-!
Shallow embedding of `async-lock`'s `src/mutex.rs`.

The mutex state is a single machine word (`AtomicUsize`, modelled as a `Nat`
reduced mod `2 ^ 64` wherever the code can wrap): bit 0 is the lock bit, the
remaining bits count starved (escalated) lock operations in steps of 2.
Each atomic operation of the source is translated to a pure function on the
state word; where a step also wakes listeners (`lock_ops.notify(1)`), the
number of listeners woken by the step is returned alongside the new state.
-/

namespace AsyncLock

/-- Width of `usize` on the modelled 64-bit target. -/
def USIZE_BITS : Nat := 64

/-- `usize::MAX` on the modelled 64-bit target. -/
def USIZE_MAX : Nat := 2 ^ USIZE_BITS - 1

/-- `compare_exchange(expected, new).unwrap_or_else(|x| x)`: returns the pair
(state word after the operation, value observed before it). The exchange
succeeds exactly when the word equals `expected`. -/
def cas (w expected new : Nat) : Nat × Nat :=
  if w = expected then (new, w) else (w, w)

/-- `fetch_or(1)`: returns (state word after, value observed before). -/
def fetchOr1 (w : Nat) : Nat × Nat :=
  (w ||| 1, w)

/-- `fetch_sub(1)` with wrap-around, as in `Mutex::unlock_unchecked`. -/
def fetchSub1 (w : Nat) : Nat :=
  (w + (2 ^ USIZE_BITS - 1)) % 2 ^ USIZE_BITS

/-- `fetch_sub(2)` with wrap-around, as in `AcquireSlow::take_mutex`. -/
def fetchSub2 (w : Nat) : Nat :=
  (w + (2 ^ USIZE_BITS - 2)) % 2 ^ USIZE_BITS

/-- Result of `Mutex::try_lock` / `Mutex::try_lock_arc`: whether a guard was
returned (`Some(MutexGuard)`), together with the state word afterwards. -/
structure TryLockResult where
  acquired : Bool
  state : Nat
  deriving DecidableEq

/-- `Mutex::try_lock`: a single CAS `0 -> 1`; `Some(guard)` exactly when it
succeeds. -/
def try_lock (w : Nat) : TryLockResult :=
  let c := cas w 0 1
  if c.2 = 0 then ⟨true, c.1⟩ else ⟨false, c.1⟩

/-- `Mutex::try_lock_arc`: textually the same CAS `0 -> 1` as `try_lock`,
returning `Some(MutexGuardArc)` exactly when it succeeds. -/
def try_lock_arc (w : Nat) : TryLockResult :=
  let c := cas w 0 1
  if c.2 = 0 then ⟨true, c.1⟩ else ⟨false, c.1⟩

/-- `Mutex::unlock_unchecked`: subtract 1 from the state word, then
`lock_ops.notify(1)`. Returns (state word after, listeners woken). -/
def unlock_unchecked (w : Nat) : Nat × Nat :=
  (fetchSub1 w, 1)

/-- `Drop for MutexGuard`: calls `unlock_unchecked` on the mutex. -/
def MutexGuard.dropGuard (w : Nat) : Nat × Nat :=
  unlock_unchecked w

/-- `Drop for MutexGuardArc`: calls `unlock_unchecked` on the mutex. -/
def MutexGuardArc.dropGuard (w : Nat) : Nat × Nat :=
  unlock_unchecked w

/-- The `Mutex<T>` container: the atomic state word and the protected value
(`lock_ops : Event` carries no modelled state of its own). -/
structure MutexRepr (α : Type) where
  state : Nat
  data : α
  deriving DecidableEq

/-- `Mutex::new`: state word starts at 0, data is the given value. -/
def MutexRepr.new {α : Type} (data : α) : MutexRepr α :=
  ⟨0, data⟩

/-- `Mutex::into_inner`: consumes the mutex, returning the underlying data. -/
def MutexRepr.into_inner {α : Type} (m : MutexRepr α) : α :=
  m.data

/-- How one iteration of a loop body in `AcquireSlow::poll_with_strategy`
leaves the control flow: `success` is `return Poll::Ready(..)`, `keepWaiting`
continues the loop (the attempt will suspend on its listener), `escalate` is
`break` out of the racy loop towards the `fetch_add(2)` escalation. -/
inductive LoopOutcome where
  | success
  | keepWaiting
  | escalate
  deriving DecidableEq

/-- Effect of one loop-body iteration: the control-flow outcome, the state
word afterwards, how many listeners the iteration woke via
`lock_ops.notify(1)`, and whether it registered a fresh listener. -/
structure StepResult where
  outcome : LoopOutcome
  state : Nat
  notified : Nat
  registered : Bool
  deriving DecidableEq

/-- Racy-loop iteration with no active listener (`this.listener.is_none()`):
register a listener, then CAS `0 -> 1`; observed 0 returns success, observed
1 keeps waiting, anything else breaks out to escalate. -/
def racyStepUnregistered (w : Nat) : StepResult :=
  let c := cas w 0 1
  if c.2 = 0 then ⟨.success, c.1, 0, true⟩
  else if c.2 = 1 then ⟨.keepWaiting, c.1, 0, true⟩
  else ⟨.escalate, c.1, 0, true⟩

/-- Racy-loop iteration after the registered listener was woken
(`strategy.poll` returned): CAS `0 -> 1`; observed 0 returns success,
observed `>= 2` notifies one listener and breaks out to escalate, observed 1
falls through to the elapsed-time check — under
`cfg(all(feature = "std", not(target_family = "wasm")))` an attempt that has
waited longer than 500 microseconds breaks out to escalate
(`elapsedOver500us` is `false` whenever no clock is available). -/
def racyStepWoken (w : Nat) (elapsedOver500us : Bool) : StepResult :=
  let c := cas w 0 1
  if c.2 = 0 then ⟨.success, c.1, 0, false⟩
  else if c.2 = 1 then
    if elapsedOver500us then ⟨.escalate, c.1, 0, false⟩
    else ⟨.keepWaiting, c.1, 0, false⟩
  else ⟨.escalate, c.1, 1, false⟩

/-- Result of the escalation step: `aborted` models `crate::abort()`
(process termination, not a recoverable error), otherwise the state word
after `fetch_add(2)` together with the new value of the attempt's local
`starved` flag. -/
inductive EscalateResult where
  | aborted
  | escalated (state : Nat) (starved : Bool)
  deriving DecidableEq

/-- Escalation in `AcquireSlow::poll_with_strategy`:
`fetch_add(2, Release)`; if the value observed before the addition exceeds
`usize::MAX / 2` the process aborts, otherwise `*this.starved = true`. -/
def escalateStep (w : Nat) : EscalateResult :=
  let observed := w
  let after := (w + 2) % 2 ^ USIZE_BITS
  if observed > USIZE_MAX / 2 then .aborted
  else .escalated after true

/-- Fair-loop iteration with no active listener: register a listener, then
CAS `2 -> 2|1`; observed exactly 2 returns success, an odd observed value
keeps waiting, an even observed value other than 2 notifies one listener and
keeps waiting without taking the lock. -/
def fairStepUnregistered (w : Nat) : StepResult :=
  let c := cas w 2 (2 ||| 1)
  if c.2 = 2 then ⟨.success, c.1, 0, true⟩
  else if c.2 % 2 = 1 then ⟨.keepWaiting, c.1, 0, true⟩
  else ⟨.keepWaiting, c.1, 1, true⟩

/-- Fair-loop iteration after the registered listener was woken:
`fetch_or(1)`; success exactly when the value observed before the OR was
even. -/
def fairStepWoken (w : Nat) : StepResult :=
  let c := fetchOr1 w
  if c.2 % 2 = 0 then ⟨.success, c.1, 0, false⟩
  else ⟨.keepWaiting, c.1, 0, false⟩

/-- The fields of `AcquireSlow` that the bookkeeping claims depend on:
whether `mutex : Option<B>` still holds the reference, and the local
`starved` flag. -/
structure AcquireSlowS where
  hasMutex : Bool
  starved : Bool
  deriving DecidableEq

/-- `AcquireSlow::new`: holds the mutex reference, not starved. -/
def AcquireSlowS.new : AcquireSlowS :=
  ⟨true, false⟩

/-- `AcquireSlow::take_mutex`: takes the mutex reference out of the attempt;
if the `starved` flag is set and the reference was still present, performs
the compensating `fetch_sub(2, Release)` on the state word. Returns the
attempt afterwards, the state word afterwards, and whether the reference was
actually handed out (`Option::is_some` of the result). -/
def AcquireSlowS.take_mutex (a : AcquireSlowS) (w : Nat) : AcquireSlowS × Nat × Bool :=
  let taken := a.hasMutex
  let w1 := if a.starved ∧ taken then fetchSub2 w else w
  (⟨false, a.starved⟩, w1, taken)

/-- `PinnedDrop for AcquireSlow`: calls `take_mutex`, discarding the
reference; returns the state word afterwards. -/
def AcquireSlowS.pinnedDrop (a : AcquireSlowS) (w : Nat) : Nat :=
  (a.take_mutex w).2.1

/-- A complete lifecycle of one `AcquireSlow` attempt, as far as the state
word is concerned. `esc` says whether the attempt escalated (ran
`escalateStep`); `succeed` says whether it completed successfully (in which
case `take_mutex` runs at the `Poll::Ready` return and `PinnedDrop` runs
`take_mutex` again later) or was cancelled (only `PinnedDrop` runs
`take_mutex`). Returns `none` if escalation aborted, otherwise the final
state word, whether the first `take_mutex` handed out the reference, and
whether a second `take_mutex` (on the success path) handed it out again. -/
def AcquireSlowS.lifecycle (esc succeed : Bool) (w : Nat) : Option (Nat × Bool × Bool) :=
  let step1 : Option (AcquireSlowS × Nat) :=
    if esc then
      match escalateStep w with
      | .aborted => none
      | .escalated w1 st => some (⟨true, st⟩, w1)
    else some (AcquireSlowS.new, w)
  step1.map fun p =>
    if succeed then
      let r1 := p.1.take_mutex p.2
      let r2 := r1.1.take_mutex r1.2.1
      (r2.2.1, r1.2.2, r2.2.2)
    else
      let r1 := p.1.take_mutex p.2
      (r1.2.1, r1.2.2, false)

/-- First activation of `LockInner::poll_with_strategy` /
`LockArcInnards::poll_with_strategy`: either `Poll::Ready` with the state
word after the fast path, or the slow path with the freshly constructed
`AcquireSlow` attempt. -/
inductive FirstPoll where
  | ready (state : Nat)
  | slow (state : Nat) (attempt : AcquireSlowS)
  deriving DecidableEq

/-- `LockInner::poll_with_strategy`, first activation
(`acquire_slow.is_none()`): try the fast path `try_lock`; on success return
the guard, otherwise construct `AcquireSlow::new` and fall into the slow
path. -/
def LockInner.firstPoll (w : Nat) : FirstPoll :=
  let r := try_lock w
  if r.acquired then .ready r.state
  else .slow r.state AcquireSlowS.new

/-- `LockArcInnards::poll_with_strategy` in state `Unpolled`: try the fast
path `try_lock_arc`; on success return the guard, otherwise construct
`AcquireSlow::new` and fall into the slow path. -/
def LockArcInnards.firstPoll (w : Nat) : FirstPoll :=
  let r := try_lock_arc w
  if r.acquired then .ready r.state
  else .slow r.state AcquireSlowS.new

/-- What the `Debug` impl for `Mutex` prints in the `data` field: the fixed
placeholder or the rendering of the contained value. -/
inductive DebugField where
  | placeholder
  | value (s : String)
  deriving DecidableEq

/-- Text of a rendered `DebugField` (the `Locked` helper writes the fixed
string). -/
def DebugField.text (d : DebugField) : String :=
  match d with
  | .placeholder => "<locked>"
  | .value s => s

/-- `impl Debug for Mutex`: `try_lock`; on `None` render the placeholder, on
`Some(guard)` render the value through the guard, which is dropped (running
`unlock_unchecked`) when the match arm ends. Returns the rendered field and
the state word afterwards. -/
def mutexDebugFmt (w : Nat) (render : String) : DebugField × Nat :=
  let r := try_lock w
  if r.acquired then (DebugField.value render, (MutexGuard.dropGuard r.state).1)
  else (DebugField.placeholder, r.state)

/-- C1: each racy-loop step registers a listener if none is active, then does
CAS `0 -> 1`: observed 0 is success (state word becomes 1), observed 1 keeps
waiting, observed `>= 2` abandons the loop to escalate; a woken step that
observes `>= 2` additionally re-wakes exactly one listener before breaking
out, and a woken step that observes 1 after waiting longer than 500
microseconds (clock available) also breaks out to escalate. -/
theorem racy_loop_classification (w : Nat) (e : Bool) :
    ((racyStepUnregistered w).outcome = LoopOutcome.success ↔ w = 0)
    ∧ ((racyStepUnregistered w).outcome = LoopOutcome.keepWaiting ↔ w = 1)
    ∧ ((racyStepUnregistered w).outcome = LoopOutcome.escalate ↔ 2 ≤ w)
    ∧ (racyStepUnregistered w).registered = true
    ∧ (racyStepUnregistered w).notified = 0
    ∧ (w = 0 → (racyStepUnregistered w).state = 1 ∧ (racyStepWoken w e).state = 1)
    ∧ (w ≠ 0 → (racyStepUnregistered w).state = w ∧ (racyStepWoken w e).state = w)
    ∧ ((racyStepWoken w e).outcome = LoopOutcome.success ↔ w = 0)
    ∧ ((racyStepWoken w e).outcome = LoopOutcome.escalate ↔ (2 ≤ w ∨ (w = 1 ∧ e = true)))
    ∧ ((racyStepWoken w e).notified = if 2 ≤ w then 1 else 0) := by
  rcases eq_or_ne w 0 with rfl | h0
  · cases e <;> simp [racyStepUnregistered, racyStepWoken, cas]
  · rcases eq_or_ne w 1 with rfl | h1
    · cases e <;> simp [racyStepUnregistered, racyStepWoken, cas]
    · have h2 : 2 ≤ w := by omega
      cases e <;>
        simp [racyStepUnregistered, racyStepWoken, cas, h0, h1, h2]

/-- Closed instance of `racy_loop_classification` at state word 5 (someone
escalated) after a wake: the step escalates and re-wakes one listener. -/
theorem racy_loop_classification_witness :
    (racyStepUnregistered 5).outcome = LoopOutcome.escalate
    ∧ (racyStepWoken 5 false).notified = 1 :=
  ⟨(racy_loop_classification 5 false).2.2.1.mpr (by decide), by decide⟩

/-- C2: a fair-loop step with no listener registers and does CAS `2 -> 3`:
exact match is success, odd observed keeps waiting, even observed other than
2 wakes exactly one listener and keeps waiting without taking the lock; a
woken fair-loop step does `fetch_or 1` and succeeds iff the pre-OR value was
even. -/
theorem fair_loop_classification (w : Nat) :
    ((fairStepUnregistered w).outcome = LoopOutcome.success ↔ w = 2)
    ∧ (w = 2 → fairStepUnregistered w = ⟨LoopOutcome.success, 3, 0, true⟩)
    ∧ (w % 2 = 1 → fairStepUnregistered w = ⟨LoopOutcome.keepWaiting, w, 0, true⟩)
    ∧ (w % 2 = 0 → w ≠ 2 → fairStepUnregistered w = ⟨LoopOutcome.keepWaiting, w, 1, true⟩)
    ∧ ((fairStepWoken w).outcome = LoopOutcome.success ↔ w % 2 = 0)
    ∧ (fairStepWoken w).state = w ||| 1
    ∧ (fairStepWoken w).notified = 0 := by
  rcases eq_or_ne w 2 with rfl | h2
  · simp [fairStepUnregistered, fairStepWoken, cas, fetchOr1]
  · rcases Nat.even_or_odd w with he | ho
    · have hm : w % 2 = 0 := Nat.even_iff.mp he
      simp [fairStepUnregistered, fairStepWoken, cas, fetchOr1, h2, hm]
    · have hm : w % 2 = 1 := Nat.odd_iff.mp ho
      simp [fairStepUnregistered, fairStepWoken, cas, fetchOr1, h2, hm]

/-- Closed instance of `fair_loop_classification` at state word 4 (lock free
but another escalated waiter present): the unregistered step wakes one
listener and keeps waiting; a woken step at 4 succeeds. -/
theorem fair_loop_classification_witness :
    fairStepUnregistered 4 = ⟨LoopOutcome.keepWaiting, 4, 1, true⟩
    ∧ (fairStepWoken 4).outcome = LoopOutcome.success :=
  ⟨(fair_loop_classification 4).2.2.2.1 (by decide) (by decide),
    (fair_loop_classification 4).2.2.2.2.1.mpr (by decide)⟩

/-- C3: over a complete lifecycle of one attempt — escalated or not,
successful (take at `Poll::Ready` plus a later drop) or cancelled (drop
only) — the state word returns exactly to its starting value, the single
`take_mutex` step hands out the mutex reference exactly once, and any
further `take_mutex` hands out nothing and changes nothing; in particular
the escalated case performs exactly one compensating decrement of 2. -/
theorem acquire_slow_counter_exact (esc succeed : Bool) (w : Nat)
    (h : w ≤ USIZE_MAX / 2) :
    AcquireSlowS.lifecycle esc succeed w = some (w, true, false) := by
  have hpow : 0 < 2 ^ USIZE_BITS := Nat.pow_pos (by norm_num)
  have hmaxdef : USIZE_MAX = 2 ^ USIZE_BITS - 1 := rfl
  have hw : w + 2 < 2 ^ USIZE_BITS := by
    have h64 : (2:Nat) ^ USIZE_BITS = 18446744073709551616 := by norm_num [USIZE_BITS]
    rw [h64]
    rw [hmaxdef, h64] at h
    omega
  have hmod : (w + 2) % 2 ^ USIZE_BITS = w + 2 := Nat.mod_eq_of_lt hw
  have hsub : fetchSub2 (w + 2) = w := by
    unfold fetchSub2
    have heq : w + 2 + (2 ^ USIZE_BITS - 2) = w + 2 ^ USIZE_BITS := by omega
    rw [heq, Nat.add_mod_right]
    exact Nat.mod_eq_of_lt (by omega)
  have hnot : ¬USIZE_MAX / 2 < w := Nat.not_lt.mpr h
  cases esc <;> cases succeed <;>
    simp [AcquireSlowS.lifecycle, escalateStep, AcquireSlowS.take_mutex,
      AcquireSlowS.new, hmod, hsub, hnot]

/-- Closed instance of `acquire_slow_counter_exact`: an escalated, successful
attempt starting at state word 10 restores the word to 10 and consumes the
mutex reference exactly once. -/
theorem acquire_slow_counter_exact_witness :
    AcquireSlowS.lifecycle true true 10 = some (10, true, false) :=
  acquire_slow_counter_exact true true 10 (by decide)

/-- C4: escalation adds 2 to the state word and sets the local starved flag;
if the pre-addition value exceeded `usize::MAX / 2` the process aborts; the
result is always either the abort or the escalated state with the flag set,
never a recoverable error. -/
theorem escalation_overflow_abort (w : Nat) :
    (w ≤ USIZE_MAX / 2 →
      escalateStep w = EscalateResult.escalated ((w + 2) % 2 ^ USIZE_BITS) true)
    ∧ (USIZE_MAX / 2 < w → escalateStep w = EscalateResult.aborted)
    ∧ (escalateStep w = EscalateResult.aborted
        ∨ escalateStep w = EscalateResult.escalated ((w + 2) % 2 ^ USIZE_BITS) true) := by
  by_cases h : USIZE_MAX / 2 < w
  · refine ⟨fun hle => absurd hle (Nat.not_le.mpr h), fun _ => ?_, Or.inl ?_⟩ <;>
      simp [escalateStep, h]
  · refine ⟨fun _ => ?_, fun hlt => absurd hlt h, Or.inr ?_⟩ <;>
      simp [escalateStep, h]

/-- Closed instance of `escalation_overflow_abort` at state word 1: the step
adds 2 (reaching 3) and sets the starved flag. -/
theorem escalation_overflow_abort_witness :
    escalateStep 1 = EscalateResult.escalated ((1 + 2) % 2 ^ USIZE_BITS) true :=
  (escalation_overflow_abort 1).1 (by decide)

/-- C5: `try_lock` and `try_lock_arc` are the same single CAS `0 -> 1`:
they return a guard exactly when the state word is 0 (setting it to 1),
leave the word unchanged on failure, and a failed call can be repeated with
the same result. -/
theorem try_lock_cas_spec (w : Nat) :
    try_lock w = try_lock_arc w
    ∧ ((try_lock w).acquired = true ↔ w = 0)
    ∧ (w = 0 → try_lock w = ⟨true, 1⟩)
    ∧ (w ≠ 0 → try_lock w = ⟨false, w⟩)
    ∧ (w ≠ 0 → try_lock (try_lock w).state = try_lock w) := by
  rcases eq_or_ne w 0 with rfl | h
  · simp [try_lock, try_lock_arc, cas]
  · simp [try_lock, try_lock_arc, cas, h]

/-- Closed instance of `try_lock_cas_spec` at state word 7: the attempt
fails and leaves the word unchanged. -/
theorem try_lock_cas_spec_witness : try_lock 7 = ⟨false, 7⟩ :=
  (try_lock_cas_spec 7).2.2.2.1 (by decide)

/-- C6: dropping either guard variant runs `unlock_unchecked`, which
subtracts exactly 1 from the state word (the lock bit, held by precondition)
and wakes exactly one waiter. -/
theorem unlock_wakes_one (w : Nat) (hlock : w % 2 = 1)
    (hrange : w < 2 ^ USIZE_BITS) :
    MutexGuard.dropGuard w = (w - 1, 1)
    ∧ MutexGuardArc.dropGuard w = (w - 1, 1)
    ∧ unlock_unchecked w = (w - 1, 1) := by
  have hpow : 0 < 2 ^ USIZE_BITS := Nat.pow_pos (by norm_num)
  have hsub : fetchSub1 w = w - 1 := by
    unfold fetchSub1
    have heq : w + (2 ^ USIZE_BITS - 1) = (w - 1) + 2 ^ USIZE_BITS := by omega
    rw [heq, Nat.add_mod_right]
    exact Nat.mod_eq_of_lt (by omega)
  simp [MutexGuard.dropGuard, MutexGuardArc.dropGuard, unlock_unchecked, hsub]

/-- Closed instance of `unlock_wakes_one` at state word 3 (locked, one
escalated waiter): unlock yields word 2 and wakes one waiter. -/
theorem unlock_wakes_one_witness : MutexGuard.dropGuard 3 = (2, 1) :=
  (unlock_wakes_one 3 (by decide) (by decide)).1

/-- C7: both lock entry points, on first activation, try the fast-path CAS
and return a guard immediately when it succeeds (state word 0); only on
failure do they construct the fresh `AcquireSlow` state machine; the two
entry points behave identically. -/
theorem lock_fast_path_first (w : Nat) :
    (w = 0 → LockInner.firstPoll w = FirstPoll.ready 1
      ∧ LockArcInnards.firstPoll w = FirstPoll.ready 1)
    ∧ (w ≠ 0 → LockInner.firstPoll w = FirstPoll.slow w AcquireSlowS.new
      ∧ LockArcInnards.firstPoll w = FirstPoll.slow w AcquireSlowS.new)
    ∧ LockInner.firstPoll w = LockArcInnards.firstPoll w := by
  rcases eq_or_ne w 0 with rfl | h
  · simp [LockInner.firstPoll, LockArcInnards.firstPoll, try_lock,
      try_lock_arc, cas]
  · simp [LockInner.firstPoll, LockArcInnards.firstPoll, try_lock,
      try_lock_arc, cas, h]

/-- Closed instance of `lock_fast_path_first` at state word 1: the fast path
fails and the slow state machine is constructed. -/
theorem lock_fast_path_first_witness :
    LockInner.firstPoll 1 = FirstPoll.slow 1 AcquireSlowS.new :=
  ((lock_fast_path_first 1).2.1 (by decide)).1

/-- C8: the debug rendering is a single non-blocking `try_lock`: when the
mutex is acquirable (state word 0) it renders the contained value (and the
transient guard restores the word); otherwise it renders the fixed
`<locked>` placeholder and leaves the word unchanged. -/
theorem mutex_debug_nonblocking (w : Nat) (s : String) :
    (w = 0 → mutexDebugFmt w s = (DebugField.value s, 0))
    ∧ (w ≠ 0 → mutexDebugFmt w s = (DebugField.placeholder, w))
    ∧ (mutexDebugFmt w s).1.text = (if w = 0 then s else "<locked>") := by
  have hpow : 0 < 2 ^ USIZE_BITS := Nat.pow_pos (by norm_num)
  have hsub : fetchSub1 1 = 0 := by
    unfold fetchSub1
    have heq : 1 + (2 ^ USIZE_BITS - 1) = 2 ^ USIZE_BITS := by omega
    rw [heq, Nat.mod_self]
  rcases eq_or_ne w 0 with rfl | h
  · simp [mutexDebugFmt, try_lock, cas, MutexGuard.dropGuard,
      unlock_unchecked, hsub, DebugField.text]
  · simp [mutexDebugFmt, try_lock, cas, MutexGuard.dropGuard,
      unlock_unchecked, hsub, DebugField.text, h]

/-- Closed instance of `mutex_debug_nonblocking` at state word 2 (unlocked
but escalated waiter present): debug renders the placeholder without
touching the word. -/
theorem mutex_debug_nonblocking_witness :
    mutexDebugFmt 2 "7" = (DebugField.placeholder, 2) :=
  (mutex_debug_nonblocking 2 "7").2.1 (by decide)

/-- C9: constructing a mutex from a value and consuming it back yields the
value unmodified, and construction initializes the state word to 0. -/
theorem mutex_new_into_inner_roundtrip {α : Type} (v : α) :
    MutexRepr.into_inner (MutexRepr.new v) = v ∧ (MutexRepr.new v).state = 0 :=
  ⟨rfl, rfl⟩

/-- C10: for every nonzero state word — in particular an even word `>= 2`,
where the mutex is unlocked but escalated waiters are present — `try_lock`
and `try_lock_arc` return no guard and leave the word unchanged. -/
theorem try_lock_fails_when_nonzero (w : Nat) (h : w ≠ 0) :
    (try_lock w).acquired = false ∧ (try_lock_arc w).acquired = false
    ∧ (try_lock w).state = w ∧ (try_lock_arc w).state = w := by
  simp [try_lock, try_lock_arc, cas, h]

/-- Closed instance of `try_lock_fails_when_nonzero` at state word 2: the
lock bit is clear (word even) yet `try_lock` fails. -/
theorem try_lock_fails_when_nonzero_witness :
    (2:Nat) % 2 = 0 ∧ (try_lock 2).acquired = false :=
  ⟨by decide, (try_lock_fails_when_nonzero 2 (by decide)).1⟩

end AsyncLock
